import Mathlib

/-!
Verification development for the Spiralogic Oracle System's phase-gating and
memory-bridge subsystem.

The Python sources `src/core/spiralogic/phase_gating.py`,
`src/core/memory/ain_integration.py` and `src/core/agents/base.py` are shallowly
embedded below.  Modelling conventions:

- Python `float` values are modelled as exact rationals (`ℚ`); every literal in
  the source is decimal-exact, so all comparisons are preserved.
- `datetime.now()` is modelled by an explicit parameter `now : ℚ` (time measured
  in days); `timedelta(days = d)` is the rational `d`.
- Python `dict`s are modelled as insertion-ordered association lists
  (`List (k × v)`): lookup takes the first binding, assignment to an existing
  key rewrites it in place, assignment to a fresh key appends.  This matches
  CPython's ordered-dict semantics, including `list(d.keys())` order.
- A raised exception is modelled by `Option`/`Except` (`none` / `.error`), and
  where a method keeps partially mutated state before raising, the partial
  state is returned alongside the failure flag.
-/

namespace Spiralogic

/-- Insertion-ordered dictionary lookup: value of the first binding of `k`. -/
def dget {α β : Type} [DecidableEq α] : List (α × β) → α → Option β
  | [], _ => none
  | p :: rest, k => if p.1 = k then some p.2 else dget rest k

/-- Python `k in d`. -/
def dmem {α β : Type} [DecidableEq α] : List (α × β) → α → Bool
  | [], _ => false
  | p :: rest, k => p.1 = k || dmem rest k

/-- Rewrite every binding of key `k` in place (keys are unique in every
dictionary the system builds, so this rewrites the single binding). -/
def dreplace {α β : Type} [DecidableEq α] : List (α × β) → α → β → List (α × β)
  | [], _, _ => []
  | p :: rest, k, v => (if p.1 = k then (k, v) else p) :: dreplace rest k v

/-- Python `d[k] = v`: rewrite an existing key in place, else append a fresh
binding at the end (CPython insertion-order semantics). -/
def dset {α β : Type} [DecidableEq α] (d : List (α × β)) (k : α) (v : β) : List (α × β) :=
  if dmem d k then dreplace d k v else d ++ [(k, v)]

/-- Character-list version of Python substring containment: does the haystack
start with the needle? -/
def charsStartWith : List Char → List Char → Bool
  | [], _ => true
  | _ :: _, [] => false
  | a :: as, b :: bs => a == b && charsStartWith as bs

/-- Does the needle occur as a contiguous segment of the haystack? -/
def charsHaveSeg (needle : List Char) : List Char → Bool
  | [] => needle.isEmpty
  | b :: bs => charsStartWith needle (b :: bs) || charsHaveSeg needle bs

/-- Python `sub in s` on strings. -/
def strContains (s sub : String) : Bool :=
  charsHaveSeg sub.data s.data

/-- Python string slice `s[:n]`. -/
def pyTake (s : String) (n : Nat) : String :=
  String.mk (s.data.take n)

/-- Python `xs[-n:]` on lists (the most recent `n` entries). -/
def lastN {α : Type} (xs : List α) (n : Nat) : List α :=
  xs.drop (xs.length - n)

/-- The seven Spiralogic growth phases (`SpiralPhase` in `agents/base.py`). -/
inductive SpiralPhase where
  | INITIATION
  | EXPLORATION
  | CHALLENGE
  | TRANSFORMATION
  | INTEGRATION
  | MASTERY
  | TRANSCENDENCE
deriving DecidableEq, Repr

/-- Enum value string of a phase (`SpiralPhase.<X>.value`). -/
def SpiralPhase.value : SpiralPhase → String
  | .INITIATION => "initiation"
  | .EXPLORATION => "exploration"
  | .CHALLENGE => "challenge"
  | .TRANSFORMATION => "transformation"
  | .INTEGRATION => "integration"
  | .MASTERY => "mastery"
  | .TRANSCENDENCE => "transcendence"

/-- The five elemental archetypes (`Element` in `agents/base.py`). -/
inductive Element where
  | FIRE
  | WATER
  | EARTH
  | AIR
  | AETHER
deriving DecidableEq, Repr

/-- Enum value string of an element (`Element.<X>.value`). -/
def Element.value : Element → String
  | .FIRE => "fire"
  | .WATER => "water"
  | .EARTH => "earth"
  | .AIR => "air"
  | .AETHER => "aether"

/-- Python `Element(value)`: enum construction from the value string; `none`
models the `ValueError` raised on an unknown value. -/
def Element.fromValue (s : String) : Option Element :=
  if s == "fire" then some .FIRE
  else if s == "water" then some .WATER
  else if s == "earth" then some .EARTH
  else if s == "air" then some .AIR
  else if s == "aether" then some .AETHER
  else none

/-- A context snapshot handed to `check_phase_transition`: a string-keyed
mapping of numeric signals.  `Ctx.get k` is Python's `ctx.get(k, 0)`. -/
def Ctx : Type := List (String × ℚ)

/-- Python `context.get(key, 0)`. -/
def Ctx.get (ctx : Ctx) (k : String) : ℚ :=
  (dget ctx k).getD 0

/-- Embedding of `PhaseTransitionCondition` (phase_gating.py lines 15-22). -/
structure PhaseTransitionCondition where
  name : String
  check_function : Ctx → Bool
  description : String
  weight : ℚ := 1
  required : Bool := false

/-- Embedding of `PhaseGate` (phase_gating.py lines 25-33), with the source's
defaults for the last three fields. -/
structure PhaseGate where
  from_phase : SpiralPhase
  to_phase : SpiralPhase
  conditions : List PhaseTransitionCondition
  minimum_duration : ℚ := 7
  ritual_required : Bool := true
  collective_resonance_threshold : ℚ := 0.7

/-- Embedding of `UserPhaseData.phase_history` entries built by
`transition_phase` (phase_gating.py lines 442-448). -/
structure TransitionRecord where
  from_phase : String
  to_phase : String
  transition_time : ℚ
  spiral_count : Nat
  ritual_completed : Bool
deriving DecidableEq, Repr

/-- Embedding of a breakthrough moment recorded by `record_breakthrough`
(phase_gating.py lines 485-489). -/
structure Breakthrough where
  timestamp : ℚ
  phase : String
  data : List (String × ℚ)
deriving DecidableEq, Repr

/-- Embedding of `UserPhaseData` (phase_gating.py lines 36-46). -/
structure UserPhaseData where
  user_id : String
  current_phase : SpiralPhase
  phase_entry_time : ℚ
  completed_conditions : List (String × Bool) := []
  phase_history : List TransitionRecord := []
  spiral_count : Nat := 1
  phase_resonance : ℚ := 0.5
  breakthrough_moments : List Breakthrough := []

/-- The `user_phase_data` dictionary of a `PhaseGatingSystem` instance
(phase_gating.py line 55). -/
def UserMap : Type := List (String × UserPhaseData)

/-- The static gate table built by `PhaseGatingSystem._initialize_phase_gates`
(phase_gating.py lines 58-258), transcribed gate by gate with the source's
weights, flags, durations and predicate thresholds. -/
def phase_gates : List PhaseGate :=
  [ { from_phase := .INITIATION
      to_phase := .EXPLORATION
      conditions :=
        [ { name := "vision_clarified"
            check_function := fun ctx => ctx.get "vision_clarity" > 0.7
            description := "User has clarified their vision or intention"
            weight := 2.0
            required := true },
          { name := "first_action_taken"
            check_function := fun ctx => ctx.get "actions_taken" > 0
            description := "User has taken at least one concrete action"
            weight := 1.5 },
          { name := "commitment_declared"
            check_function := fun ctx => ctx.get "commitment_level" > 0.6
            description := "User has declared commitment to their path"
            weight := 1.0 } ]
      minimum_duration := 3
      ritual_required := true },
    { from_phase := .EXPLORATION
      to_phase := .CHALLENGE
      conditions :=
        [ { name := "edges_found"
            check_function := fun ctx => ctx.get "edges_encountered" ≥ 3
            description := "User has encountered multiple edge experiences"
            weight := 1.5
            required := true },
          { name := "patterns_recognized"
            check_function := fun ctx => ctx.get "patterns_seen" ≥ 2
            description := "User recognizes recurring patterns"
            weight := 1.0 },
          { name := "resistance_felt"
            check_function := fun ctx => ctx.get "resistance_level" > 0.5
            description := "User feels natural resistance to growth"
            weight := 1.0 } ]
      minimum_duration := 7 },
    { from_phase := .CHALLENGE
      to_phase := .TRANSFORMATION
      conditions :=
        [ { name := "crisis_faced"
            check_function := fun ctx => ctx.get "crisis_intensity" > 0.8
            description := "User has faced significant crisis or challenge"
            weight := 2.0
            required := true },
          { name := "old_identity_released"
            check_function := fun ctx => ctx.get "identity_fluidity" > 0.7
            description := "User shows willingness to release old identity"
            weight := 1.5 },
          { name := "surrender_achieved"
            check_function := fun ctx => ctx.get "surrender_level" > 0.6
            description := "User has surrendered to transformation process"
            weight := 1.5 } ]
      minimum_duration := 14
      ritual_required := true
      collective_resonance_threshold := 0.8 },
    { from_phase := .TRANSFORMATION
      to_phase := .INTEGRATION
      conditions :=
        [ { name := "rebirth_complete"
            check_function := fun ctx => ctx.get "rebirth_markers" ≥ 3
            description := "User shows clear signs of rebirth"
            weight := 2.0
            required := true },
          { name := "new_identity_emerging"
            check_function := fun ctx => ctx.get "new_identity_coherence" > 0.6
            description := "New identity beginning to stabilize"
            weight := 1.0 },
          { name := "gifts_recognized"
            check_function := fun ctx => ctx.get "gifts_awareness" > 0.5
            description := "User recognizes gifts from transformation"
            weight := 1.0 } ]
      minimum_duration := 7 },
    { from_phase := .INTEGRATION
      to_phase := .MASTERY
      conditions :=
        [ { name := "wisdom_embodied"
            check_function := fun ctx => ctx.get "embodiment_level" > 0.8
            description := "User embodies learned wisdom consistently"
            weight := 1.5
            required := true },
          { name := "teaching_impulse"
            check_function := fun ctx => ctx.get "teaching_desire" > 0.6
            description := "User feels called to share wisdom"
            weight := 1.0 },
          { name := "stability_achieved"
            check_function := fun ctx => ctx.get "life_stability" > 0.7
            description := "User has achieved new stability"
            weight := 1.0 } ]
      minimum_duration := 21 },
    { from_phase := .MASTERY
      to_phase := .TRANSCENDENCE
      conditions :=
        [ { name := "ego_transcended"
            check_function := fun ctx => ctx.get "ego_dissolution" > 0.8
            description := "User transcends personal ego regularly"
            weight := 2.0
            required := true },
          { name := "unity_experienced"
            check_function := fun ctx => ctx.get "unity_experiences" ≥ 3
            description := "Multiple unity consciousness experiences"
            weight := 1.5 },
          { name := "service_embodied"
            check_function := fun ctx => ctx.get "service_orientation" > 0.9
            description := "Life oriented toward service"
            weight := 1.0 } ]
      minimum_duration := 28
      ritual_required := true
      collective_resonance_threshold := 0.9 },
    { from_phase := .TRANSCENDENCE
      to_phase := .INITIATION
      conditions :=
        [ { name := "cycle_complete"
            check_function := fun ctx => ctx.get "completion_sense" > 0.9
            description := "Sense of cycle completion"
            weight := 1.0
            required := true },
          { name := "new_calling"
            check_function := fun ctx => ctx.get "new_vision_emerging" > 0.5
            description := "New vision or calling emerging"
            weight := 1.0 } ]
      minimum_duration := 7 } ]

/-- Accumulator of the condition loop in `check_phase_transition`
(phase_gating.py lines 406-418): the `required_met`, `achieved_weight` and
`total_weight` locals plus the mutated `completed_conditions` dictionary. -/
structure CondAcc where
  required_met : Bool
  achieved_weight : ℚ
  total_weight : ℚ
  completed : List (String × Bool)

/-- One iteration of the condition loop (phase_gating.py lines 410-418). -/
def condStep (ctx : Ctx) (acc : CondAcc) (c : PhaseTransitionCondition) : CondAcc :=
  if c.check_function ctx then
    { acc with
      achieved_weight := acc.achieved_weight + c.weight
      total_weight := acc.total_weight + c.weight
      completed := dset acc.completed c.name true }
  else if c.required then
    { acc with required_met := false, total_weight := acc.total_weight + c.weight }
  else
    { acc with total_weight := acc.total_weight + c.weight }

/-- The gate-lookup loop of `check_phase_transition` (phase_gating.py lines
391-395): the first gate whose `from_phase` is the user's current phase. -/
def findGate : List PhaseGate → SpiralPhase → Option PhaseGate
  | [], _ => none
  | g :: rest, phase => if g.from_phase = phase then some g else findGate rest phase

/-- Embedding of `PhaseGatingSystem.check_phase_transition`
(phase_gating.py lines 383-432).  The result pairs the returned
`Optional[SpiralPhase]` with the post-call `user_phase_data` dictionary,
because the loop writes `user_data.completed_conditions[name] = True` for each
met condition. -/
def check_phase_transition (data : UserMap) (user_id : String) (ctx : Ctx)
    (now : ℚ) : Option SpiralPhase × UserMap :=
  match dget data user_id with
  | none => (none, data)
  | some user_data =>
    match findGate phase_gates user_data.current_phase with
    | none => (none, data)
    | some applicable_gate =>
      if now - user_data.phase_entry_time < applicable_gate.minimum_duration then
        (none, data)
      else
        let acc := applicable_gate.conditions.foldl (condStep ctx)
          { required_met := true, achieved_weight := 0, total_weight := 0,
            completed := user_data.completed_conditions }
        let data1 := dset data user_id { user_data with completed_conditions := acc.completed }
        let readiness : ℚ :=
          if acc.total_weight > 0 then acc.achieved_weight / acc.total_weight else 0
        let result : Option SpiralPhase :=
          if acc.required_met && decide (readiness ≥ 0.7) then
            -- Python `if applicable_gate.collective_resonance_threshold:` is a
            -- float-truthiness test: any nonzero threshold takes this branch.
            if applicable_gate.collective_resonance_threshold ≠ 0 then
              if ctx.get "collective_resonance" ≥ applicable_gate.collective_resonance_threshold then
                some applicable_gate.to_phase
              else
                none
            else
              some applicable_gate.to_phase
          else
            none
        (result, data1)

/-- Embedding of `PhaseGatingSystem.transition_phase`
(phase_gating.py lines 434-461), returning the updated `user_phase_data`. -/
def transition_phase (data : UserMap) (user_id : String) (new_phase : SpiralPhase)
    (ritual_completed : Bool) (now : ℚ) : UserMap :=
  match dget data user_id with
  | none => data
  | some user_data =>
    let transition_record : TransitionRecord :=
      { from_phase := user_data.current_phase.value
        to_phase := new_phase.value
        transition_time := now
        spiral_count := user_data.spiral_count
        ritual_completed := ritual_completed }
    let old_phase := user_data.current_phase
    let user_data1 :=
      { user_data with
        phase_history := user_data.phase_history ++ [transition_record]
        current_phase := new_phase
        phase_entry_time := now
        completed_conditions := []
        phase_resonance := 0.5
        spiral_count :=
          if old_phase = SpiralPhase.TRANSCENDENCE ∧ new_phase = SpiralPhase.INITIATION then
            user_data.spiral_count + 1
          else
            user_data.spiral_count }
    dset data user_id user_data1

/-- Embedding of `SpiralTracker.get_phase` (agents/base.py lines 250-252):
`self.user_phases.get(user_id, SpiralPhase.INITIATION)`. -/
def SpiralTracker.get_phase (user_phases : List (String × SpiralPhase))
    (user_id : String) : SpiralPhase :=
  (dget user_phases user_id).getD SpiralPhase.INITIATION

instance : Inhabited SpiralPhase := ⟨.INITIATION⟩

instance : Inhabited PhaseTransitionCondition :=
  ⟨{ name := "", check_function := fun _ => false, description := "" }⟩

instance : Inhabited PhaseGate :=
  ⟨{ from_phase := .INITIATION, to_phase := .INITIATION, conditions := [] }⟩

/-- The Initiation → Exploration gate, as found by the gate-lookup loop. -/
def initiationGate : PhaseGate :=
  (findGate phase_gates SpiralPhase.INITIATION).getD default

/-- A sample user who entered Initiation at time 0 with fresh state. -/
def sampleUser : UserPhaseData :=
  { user_id := "u", current_phase := .INITIATION, phase_entry_time := 0 }

/-- A one-user `user_phase_data` dictionary holding `sampleUser`. -/
def sampleMap : UserMap := [("u", sampleUser)]

/-- The context of the spec's end-to-end Initiation scenario:
vision_clarity 0.8, actions_taken 1, commitment_level 0.7. -/
def sampleCtx : Ctx :=
  [("vision_clarity", 0.8), ("actions_taken", 1), ("commitment_level", 0.7)]

/-- The spec's second end-to-end scenario context, whose required condition
(vision_clarity > 0.7) fails. -/
def lowVisionCtx : Ctx :=
  [("vision_clarity", 0.5), ("actions_taken", 1), ("commitment_level", 0.7)]

/-- A two-user dictionary with one user in Transcendence and another in
Exploration. -/
def sampleMap2 : UserMap :=
  [("u", { user_id := "u", current_phase := .TRANSCENDENCE, phase_entry_time := 0 }),
   ("v", { user_id := "v", current_phase := .EXPLORATION, phase_entry_time := 0,
           spiral_count := 4 })]

/-- The fields of `UserPhaseData` other than `completed_conditions`, bundled
for frame-condition statements. -/
def frameFields (ud : UserPhaseData) :
    String × SpiralPhase × ℚ × List TransitionRecord × Nat × ℚ × List Breakthrough :=
  (ud.user_id, ud.current_phase, ud.phase_entry_time, ud.phase_history,
   ud.spiral_count, ud.phase_resonance, ud.breakthrough_moments)

/-- A Python dictionary value in anonymized pattern records: a string or a
number. -/
inductive PVal where
  | str (s : String)
  | num (q : ℚ)
deriving DecidableEq, Repr

/-- A `Dict[str, Any]` pattern record. -/
def PatternData : Type := List (String × PVal)

/-- Embedding of `OracleResponse` (agents/base.py lines 33-44). -/
structure OracleResponse where
  element : Element
  phase : SpiralPhase
  message : String
  ritual : Option PatternData := none
  archetype : Option String := none
  symbolic_image : Option String := none
  reflection_prompt : Option String := none
  crystal_resonance : Option ℚ := none
  collective_field_data : Option PatternData := none

/-- Embedding of `UserContext` (agents/base.py lines 47-56). -/
structure UserContext where
  current_phase : SpiralPhase
  elemental_balance : List (Element × ℚ) := []
  recent_symbols : List String := []
  intention : Option String := none
  emotional_state : Option String := none
  dream_data : Option PatternData := none
  memory_payload : Option PatternData := none

/-- Python truthiness of an `Optional[str]`: `None` and `""` are falsy. -/
def pyTruthyStr : Option String → Bool
  | none => false
  | some s => !s.isEmpty

/-- Python truthiness of an `Optional[Dict]`: `None` and `{}` are falsy. -/
def pyTruthyDict : Option PatternData → Bool
  | none => false
  | some d => !d.isEmpty

/-- Python `x or default` on an `Optional[float]`: `None` and `0.0` give the
default. -/
def pyOrQ (x : Option ℚ) (dflt : ℚ) : ℚ :=
  match x with
  | some v => if v ≠ 0 then v else dflt
  | none => dflt

/-- The `content` dictionary stored by `store_oracle_interaction`
(ain_integration.py lines 80-87). -/
structure InteractionContent where
  user_input : String
  oracle_message : String
  archetype_invoked : Option String
  ritual_offered : Option PatternData
  reflection_prompt : Option String
  symbolic_image : Option String

/-- Embedding of `AINMemoryPayload` (ain_integration.py lines 16-28). -/
structure AINMemoryPayload where
  user_id : String
  timestamp : ℚ
  memory_type : String
  content : InteractionContent
  elemental_tags : List Element := []
  phase_context : Option SpiralPhase := none
  emotional_valence : ℚ := 0
  integration_level : ℚ := 0
  oracle_insights : List String := []
  collective_resonance : Option ℚ := none

/-- One entry of `SymbolicThread.appearances`
(ain_integration.py lines 178-183). -/
structure Appearance where
  timestamp : ℚ
  context : String
  phase : SpiralPhase
  element : Element

/-- Embedding of `SymbolicThread` (ain_integration.py lines 31-41), with the
two counter dictionaries as insertion-ordered association lists. -/
structure SymbolicThread where
  symbol : String
  first_appearance : ℚ
  appearances : List Appearance := []
  elemental_associations : List (Element × Nat) := []
  phase_associations : List (SpiralPhase × Nat) := []
  transformation_trajectory : List String := []
  current_meaning : String := ""
  archetypal_resonance : ℚ := 0

/-- The keyword table of `_extract_symbols_from_image`
(ain_integration.py lines 333-335). -/
def symbol_keywords : List String :=
  ["fire", "water", "earth", "air", "void", "light", "shadow",
   "tree", "mountain", "ocean", "sky", "crystal", "mirror",
   "phoenix", "dragon", "eagle", "serpent", "lotus", "seed"]

/-- Embedding of `AINMemoryBridge._extract_symbols_from_image`
(ain_integration.py lines 330-340): the keywords occurring in the lowercased
image description, in table order. -/
def extract_symbols_from_image (symbolic_image : String) : List String :=
  symbol_keywords.filter (fun symbol => strContains symbolic_image.toLower symbol)

/-- The symbols extracted from a response by `_update_symbolic_threads`
(ain_integration.py lines 161-166): image keywords, then the lowercased
archetype. -/
def responseSymbols (resp : OracleResponse) : List String :=
  (if pyTruthyStr resp.symbolic_image then
    extract_symbols_from_image (resp.symbolic_image.getD "")
   else []) ++
  (if pyTruthyStr resp.archetype then [(resp.archetype.getD "").toLower] else [])

/-- Python `max(counter, key=counter.get)`: the first key attaining the
maximal count, in insertion order; `none` models the `ValueError` on an empty
dictionary. -/
def pyMaxKeyAux {α : Type} : α × Nat → List (α × Nat) → α
  | best, [] => best.1
  | best, p :: rest =>
    if p.2 > best.2 then pyMaxKeyAux p rest else pyMaxKeyAux best rest

/-- Python `max(counter, key=counter.get)` over an association-list counter. -/
def pyMaxKey {α : Type} : List (α × Nat) → Option α
  | [] => none
  | p :: rest => some (pyMaxKeyAux p rest)

/-- Embedding of `AINMemoryBridge._interpret_symbol_evolution`
(ain_integration.py lines 394-408).  `list(dict.keys())[-1]` is the last key
in insertion order; `none` models the `ValueError` of `max` on an empty
dictionary. -/
def interpret_symbol_evolution (thread : SymbolicThread) : Option String :=
  if thread.appearances.length < 2 then
    some ("Emerging symbol: " ++ thread.symbol)
  else
    let phases := thread.phase_associations.map Prod.fst
    if phases.length > 1 then
      phases.getLast?.map (fun p => thread.symbol ++ " evolving through " ++ p.value)
    else
      (pyMaxKey thread.elemental_associations).map
        (fun e => thread.symbol ++ " resonating with " ++ e.value ++ " energy")

/-- One iteration of the symbol loop in `_update_symbolic_threads`
(ain_integration.py lines 168-194): create the thread on first appearance,
append the appearance, bump both counters, recompute `current_meaning` and
set `archetypal_resonance` to `crystal_resonance or 0.7`.  `none` propagates
an exception from `_interpret_symbol_evolution`. -/
def updateSymbolThread (threads : List (String × SymbolicThread)) (symbol : String)
    (resp : OracleResponse) (context : UserContext) (now : ℚ) :
    Option (List (String × SymbolicThread)) :=
  let threads1 :=
    if dmem threads symbol then threads
    else dset threads symbol { symbol := symbol, first_appearance := now }
  match dget threads1 symbol with
  | none => none
  | some thread =>
    let thread1 :=
      { thread with
        appearances := thread.appearances ++
          [{ timestamp := now, context := pyTake resp.message 100,
             phase := context.current_phase, element := resp.element }],
        elemental_associations := dset thread.elemental_associations resp.element
          ((dget thread.elemental_associations resp.element).getD 0 + 1),
        phase_associations := dset thread.phase_associations context.current_phase
          ((dget thread.phase_associations context.current_phase).getD 0 + 1) }
    (interpret_symbol_evolution thread1).map (fun meaning =>
      dset threads1 symbol
        { thread1 with
          current_meaning := meaning,
          archetypal_resonance := pyOrQ resp.crystal_resonance 0.7 })

/-- The symbol loop of `_update_symbolic_threads` over the extracted symbol
list, threading the per-user thread dictionary. -/
def updateSymbolsFold (resp : OracleResponse) (context : UserContext) (now : ℚ) :
    List (String × SymbolicThread) → List String → Option (List (String × SymbolicThread))
  | threads, [] => some threads
  | threads, s :: rest =>
    match updateSymbolThread threads s resp context now with
    | none => none
    | some threads1 => updateSymbolsFold resp context now threads1 rest

/-- Embedding of `AINMemoryBridge._update_symbolic_threads`
(ain_integration.py lines 152-194) over the bridge's per-user thread map. -/
def update_symbolic_threads (all_threads : List (String × List (String × SymbolicThread)))
    (user_id : String) (resp : OracleResponse) (context : UserContext) (now : ℚ) :
    Option (List (String × List (String × SymbolicThread))) :=
  let all1 :=
    if dmem all_threads user_id then all_threads
    else dset all_threads user_id []
  let user_threads := (dget all1 user_id).getD []
  (updateSymbolsFold resp context now user_threads (responseSymbols resp)).map
    (fun ut => dset all1 user_id ut)

/-- One entry of `NarrativeArc.key_events`
(ain_integration.py lines 214-219 and 234-239). -/
structure KeyEvent where
  timestamp : ℚ
  event : String
  oracle_guidance : Option String
  element : String

/-- The `beginning` snapshot of a `NarrativeArc`
(ain_integration.py lines 228-232). -/
structure ArcBeginning where
  timestamp : ℚ
  trigger : String
  initial_guidance : String

/-- Embedding of `NarrativeArc` (ain_integration.py lines 44-55). -/
structure NarrativeArc where
  arc_id : String
  title : String
  beginning : ArcBeginning
  current_chapter : String
  key_events : List KeyEvent := []
  active_tensions : List String := []
  potential_resolutions : List String := []
  oracle_guidance : List OracleResponse := []
  completion_percentage : ℚ := 0

/-- The theme→keyword table of `_extract_narrative_themes`
(ain_integration.py lines 417-424). -/
def theme_patterns : List (String × List String) :=
  [("transformation", ["change", "transform", "new", "different"]),
   ("relationship", ["love", "connection", "partner", "relationship"]),
   ("purpose", ["purpose", "meaning", "calling", "mission"]),
   ("healing", ["heal", "pain", "trauma", "recovery"]),
   ("growth", ["grow", "develop", "evolve", "expand"]),
   ("creation", ["create", "build", "manifest", "birth"])]

/-- Embedding of `AINMemoryBridge._extract_narrative_themes`
(ain_integration.py lines 410-431): themes whose keyword list matches the
lowercased input, in table order.  The `oracle_response` parameter is unused
in the source body. -/
def extract_narrative_themes (user_input : String) (_resp : OracleResponse) :
    List String :=
  (theme_patterns.filter
    (fun p => p.2.any (fun keyword => strContains user_input.toLower keyword))).map Prod.fst

/-- The tension→keyword table of `_identify_tension`
(ain_integration.py lines 477-482). -/
def tension_indicators : List (String × List String) :=
  [("conflict", ["but", "however", "struggle", "fight"]),
   ("uncertainty", ["confused", "don\x27t know", "unsure", "lost"]),
   ("desire", ["want", "need", "wish", "hope"]),
   ("fear", ["afraid", "scared", "worry", "anxious"])]

/-- First table entry whose keyword list matches the lowercased input. -/
def firstKeywordMatch : List (String × List String) → String → Option String
  | [], _ => none
  | p :: rest, lowInput =>
    if p.2.any (fun keyword => strContains lowInput keyword) then some p.1
    else firstKeywordMatch rest lowInput

/-- Embedding of `AINMemoryBridge._identify_tension`
(ain_integration.py lines 475-490). -/
def identify_tension (user_input : String) : String :=
  match firstKeywordMatch tension_indicators user_input.toLower with
  | some tension_type => tension_type ++ ": " ++ pyTake user_input 50 ++ "..."
  | none => "exploration: " ++ pyTake user_input 50 ++ "..."

/-- Embedding of `AINMemoryBridge._find_matching_arc`
(ain_integration.py lines 433-441) as the index of the first open arc whose
lowercased title contains the theme. -/
def find_matching_arc_idx (arcs : List NarrativeArc) (theme : String) : Option Nat :=
  arcs.findIdx? (fun arc =>
    strContains arc.title.toLower theme && decide (arc.completion_percentage < 0.9))

/-- Embedding of `AINMemoryBridge._determine_chapter`
(ain_integration.py lines 443-456). -/
def determine_chapter (arc : NarrativeArc) : String :=
  let event_count := arc.key_events.length
  if event_count ≤ 2 then "Beginning"
  else if event_count ≤ 5 then "Rising Action"
  else if event_count ≤ 8 then "Climax"
  else if arc.completion_percentage > 0.8 then "Resolution"
  else "Falling Action"

/-- Embedding of `AINMemoryBridge._calculate_arc_completion`
(ain_integration.py lines 458-473): an arc with no active tensions returns
1.0 outright; otherwise the average of the resolved-tension ratio and the
guidance-depth factor. -/
def calculate_arc_completion (arc : NarrativeArc) : ℚ :=
  if arc.active_tensions.isEmpty then 1.0
  else
    let initial_tensions := arc.active_tensions.length
    let resolved_tensions :=
      (arc.active_tensions.filter (fun tension => strContains tension.toLower "resolved")).length
    let base_completion : ℚ :=
      if initial_tensions > 0 then (resolved_tensions : ℚ) / (initial_tensions : ℚ) else 0
    let guidance_factor : ℚ := min ((arc.oracle_guidance.length : ℚ) / 10) 1.0
    (base_completion + guidance_factor) / 2

/-- The completion formula exactly as the spec words it (spec §4.4): always
the average of the resolved-tension ratio (1.0 when there are no tensions)
and the guidance-depth factor.  Kept separate from
`calculate_arc_completion`, which is the source's code, to compare the two. -/
def specArcCompletion (arc : NarrativeArc) : ℚ :=
  let resolved_tension_ratio : ℚ :=
    if arc.active_tensions.isEmpty then 1
    else ((arc.active_tensions.filter
        (fun tension => strContains tension.toLower "resolved")).length : ℚ)
      / (arc.active_tensions.length : ℚ)
  let guidance_depth_factor : ℚ := min ((arc.oracle_guidance.length : ℚ) / 10) 1
  (resolved_tension_ratio + guidance_depth_factor) / 2

/-- The key-event record appended by `_update_narrative_arcs`
(ain_integration.py lines 214-219 and 234-239). -/
def newKeyEvent (resp : OracleResponse) (user_input : String) (now : ℚ) : KeyEvent :=
  { timestamp := now, event := pyTake user_input 100,
    oracle_guidance := resp.archetype, element := resp.element.value }

/-- The per-theme body of `_update_narrative_arcs`
(ain_integration.py lines 209-243): update the first matching open arc in
place, else append a freshly created arc. -/
def updateArcForTheme (arcs : List NarrativeArc) (theme : String)
    (resp : OracleResponse) (user_input : String) (user_id : String) (now : ℚ) :
    List NarrativeArc :=
  match find_matching_arc_idx arcs theme with
  | some i =>
    match arcs.get? i with
    | none => arcs
    | some arc =>
      let arc1 :=
        { arc with
          key_events := arc.key_events ++ [newKeyEvent resp user_input now],
          oracle_guidance := arc.oracle_guidance ++ [resp] }
      let arc2 := { arc1 with current_chapter := determine_chapter arc1 }
      let arc3 := { arc2 with completion_percentage := calculate_arc_completion arc2 }
      arcs.set i arc3
  | none =>
    arcs ++
      [{ arc_id := user_id ++ "_" ++ theme ++ "_" ++ toString now,
         title := theme,
         beginning := { timestamp := now, trigger := pyTake user_input 100,
                        initial_guidance := pyTake resp.message 100 },
         current_chapter := "Beginning",
         key_events := [newKeyEvent resp user_input now],
         active_tensions := [identify_tension user_input],
         oracle_guidance := [resp] }]

/-- Embedding of `AINMemoryBridge._update_narrative_arcs`
(ain_integration.py lines 196-243). -/
def update_narrative_arcs (all_arcs : List (String × List NarrativeArc))
    (user_id : String) (resp : OracleResponse) (user_input : String) (now : ℚ) :
    List (String × List NarrativeArc) :=
  let all1 :=
    if dmem all_arcs user_id then all_arcs else dset all_arcs user_id []
  let themes := extract_narrative_themes user_input resp
  let user_arcs := (dget all1 user_id).getD []
  let user_arcs1 :=
    themes.foldl (fun arcs theme => updateArcForTheme arcs theme resp user_input user_id now)
      user_arcs
  dset all1 user_id user_arcs1

/-- The word tables of `_assess_emotional_valence`
(ain_integration.py lines 302-303). -/
def positive_words : List String := ["happy", "excited", "grateful", "love", "peace", "joy"]

/-- Negative word table of `_assess_emotional_valence`. -/
def negative_words : List String := ["sad", "angry", "frustrated", "scared", "worried", "stuck"]

/-- Embedding of `AINMemoryBridge._assess_emotional_valence`
(ain_integration.py lines 299-312). -/
def assess_emotional_valence (text : String) : ℚ :=
  let text_lower := text.toLower
  let positive_count := (positive_words.filter (fun word => strContains text_lower word)).length
  let negative_count := (negative_words.filter (fun word => strContains text_lower word)).length
  if positive_count + negative_count = 0 then 0
  else ((positive_count : ℚ) - (negative_count : ℚ))
    / ((positive_count : ℚ) + (negative_count : ℚ))

/-- The marker words of `_extract_key_phrases` (ain_integration.py line 541). -/
def key_phrase_markers : List String := ["you are", "remember", "trust", "become", "let"]

/-- Embedding of `AINMemoryBridge._extract_key_phrases`
(ain_integration.py lines 529-544): sentences split on `.`/`!`/`?`, filtered
by length and marker words, stripped, first five. -/
def extract_key_phrases (text : String) : List String :=
  let sentences := text.split (fun c => c == '.' || c == '!' || c == '?')
  ((sentences.filter (fun sentence =>
      decide (20 < sentence.length) && decide (sentence.length < 100) &&
      key_phrase_markers.any (fun word => strContains sentence.toLower word))).map
    String.trim).take 5

/-- Embedding of `AINMemoryBridge._extract_insights`
(ain_integration.py lines 314-328). -/
def extract_insights (resp : OracleResponse) : List String :=
  (if pyTruthyStr resp.archetype then ["Archetype: " ++ resp.archetype.getD ""] else []) ++
  (if pyTruthyStr resp.reflection_prompt then
    ["Reflection: " ++ resp.reflection_prompt.getD ""]
   else []) ++
  (extract_key_phrases resp.message).take 3

/-- One entry of the rolling pattern log (ain_integration.py lines 593-596). -/
structure PatternEntry where
  timestamp : ℚ
  data : PatternData

/-- Embedding of `CollectivePatternTracker` state
(ain_integration.py lines 566-571): the rolling log, the archetype-frequency
counter (keyed by the raw `archetype` value) and the per-element resonance
trends. -/
structure CollectivePatternTracker where
  patterns : List PatternEntry := []
  archetypal_frequencies : List (PVal × Nat) := []
  elemental_trends : Element → List PVal := fun _ => []

/-- Parse a pattern value as `Element(value)` does; `none` models the
`ValueError` on a non-element value. -/
def parseElementVal : PVal → Option Element
  | .str s => Element.fromValue s
  | .num _ => none

/-- The final statements of `add_pattern` (ain_integration.py lines 592-600):
append the timestamped record and keep only the last 1000. -/
def appendPatternEntry (t : CollectivePatternTracker) (pattern_data : PatternData)
    (now : ℚ) : CollectivePatternTracker :=
  let ps := t.patterns ++ [{ timestamp := now, data := pattern_data }]
  { t with patterns := if ps.length > 1000 then lastN ps 1000 else ps }

/-- Embedding of `CollectivePatternTracker.add_pattern`
(ain_integration.py lines 573-600).  The Bool is false when
`Element(pattern_data["element"])` raises `ValueError`; the returned tracker
then holds the partially mutated state (the archetype counter was already
bumped, the log entry was not yet appended). -/
def add_pattern (t : CollectivePatternTracker) (pattern_data : PatternData)
    (now : ℚ) : CollectivePatternTracker × Bool :=
  let t1 :=
    match dget pattern_data "archetype" with
    | some archetype =>
      { t with archetypal_frequencies := (dset t.archetypal_frequencies archetype
          ((dget t.archetypal_frequencies archetype).getD 0 + 1)) }
    | none => t
  if dmem pattern_data "element" && dmem pattern_data "resonance" then
    match (dget pattern_data "element").bind parseElementVal with
    | none => (t1, false)
    | some element =>
      let resonance := (dget pattern_data "resonance").getD (.num 0)
      let trend := t1.elemental_trends element ++ [resonance]
      let trend1 := if trend.length > 100 then lastN trend 100 else trend
      let t2 := { t1 with elemental_trends :=
        fun e => if e = element then trend1 else t1.elemental_trends e }
      (appendPatternEntry t2 pattern_data now, true)
  else
    (appendPatternEntry t1 pattern_data now, true)

/-- Embedding of the `AINMemoryBridge` instance state
(ain_integration.py lines 61-66). -/
structure AINMemoryBridge where
  memory_store : List (String × List AINMemoryPayload) := []
  symbolic_threads : List (String × List (String × SymbolicThread)) := []
  narrative_arcs : List (String × List NarrativeArc) := []
  phase_gating : UserMap := []
  collective_patterns : CollectivePatternTracker := {}

/-- Embedding of `AINMemoryBridge.store_oracle_interaction`
(ain_integration.py lines 68-110): build and store the payload, update
symbolic threads and narrative arcs, and forward
`oracle_response.collective_field_data` — verbatim, when truthy — to
`CollectivePatternTracker.add_pattern`.  The payload component is `none` when
an exception escaped mid-call (the bridge component then holds the state
mutated before the raise). -/
def store_oracle_interaction (bridge : AINMemoryBridge) (user_id : String)
    (oracle_response : OracleResponse) (user_input : String)
    (context : UserContext) (now : ℚ) : AINMemoryBridge × Option AINMemoryPayload :=
  let payload : AINMemoryPayload :=
    { user_id := user_id, timestamp := now, memory_type := "oracle_interaction",
      content :=
        { user_input := user_input,
          oracle_message := oracle_response.message,
          archetype_invoked := oracle_response.archetype,
          ritual_offered := oracle_response.ritual,
          reflection_prompt := oracle_response.reflection_prompt,
          symbolic_image := oracle_response.symbolic_image },
      elemental_tags := [oracle_response.element],
      phase_context := some oracle_response.phase,
      emotional_valence := assess_emotional_valence user_input,
      integration_level := pyOrQ oracle_response.crystal_resonance 0.7,
      oracle_insights := extract_insights oracle_response }
  let store1 :=
    if dmem bridge.memory_store user_id then bridge.memory_store
    else dset bridge.memory_store user_id []
  let store2 := dset store1 user_id (((dget store1 user_id).getD []) ++ [payload])
  match update_symbolic_threads bridge.symbolic_threads user_id oracle_response context now with
  | none => ({ bridge with memory_store := store2 }, none)
  | some threads1 =>
    let arcs1 := update_narrative_arcs bridge.narrative_arcs user_id oracle_response user_input now
    if pyTruthyDict oracle_response.collective_field_data then
      let step := add_pattern bridge.collective_patterns
        (oracle_response.collective_field_data.getD []) now
      let bridge1 : AINMemoryBridge :=
        { bridge with
          memory_store := store2
          symbolic_threads := threads1
          narrative_arcs := arcs1
          collective_patterns := step.1 }
      (bridge1, if step.2 then some payload else none)
    else
      let bridge1 : AINMemoryBridge :=
        { bridge with
          memory_store := store2
          symbolic_threads := threads1
          narrative_arcs := arcs1 }
      (bridge1, some payload)

/-- The records `store_oracle_interaction` hands to `add_pattern`: exactly
`collective_field_data` when truthy, nothing otherwise
(ain_integration.py lines 106-108). -/
def collectiveEmission (resp : OracleResponse) : List PatternData :=
  if pyTruthyDict resp.collective_field_data then [resp.collective_field_data.getD []]
  else []

/-- An `active_narratives` entry of `retrieve_user_context`
(ain_integration.py lines 131-135). -/
structure ActiveNarrative where
  title : String
  current_chapter : String
  tensions : List String

/-- The result of `_assess_transformation_readiness`
(ain_integration.py lines 354-384): `insufficient` is the
`{"ready": False, "indicators": []}` early return. -/
inductive TransformationAssessment where
  | insufficient
  | assessed (ready : Bool) (integration_level : ℚ) (transformation_mentions : Nat)
      (symbol_evolution : Bool) (phase_duration : Nat)

/-- The dictionary returned by `retrieve_user_context`
(ain_integration.py lines 143-150). -/
structure RetrievedContext where
  recent_symbols : List String
  active_narratives : List ActiveNarrative
  elemental_balance : List (Element × ℚ)
  transformation_indicators : TransformationAssessment
  memory_depth : Nat
  integration_average : ℚ

/-- The `{element: 0 for element in Element}` initial counter
(ain_integration.py line 344), in enum order. -/
def elementCountsInit : List (Element × Nat) :=
  [(.FIRE, 0), (.WATER, 0), (.EARTH, 0), (.AIR, 0), (.AETHER, 0)]

/-- Embedding of `AINMemoryBridge._calculate_elemental_balance`
(ain_integration.py lines 342-352); `sum(...) or 1` guards the division. -/
def calculate_elemental_balance (memories : List AINMemoryPayload) :
    List (Element × ℚ) :=
  let element_counts := memories.foldl
    (fun acc memory => memory.elemental_tags.foldl
      (fun acc2 element => dset acc2 element ((dget acc2 element).getD 0 + 1)) acc)
    elementCountsInit
  let total_nat := (element_counts.map Prod.snd).sum
  let total : ℚ := if total_nat = 0 then 1 else (total_nat : ℚ)
  element_counts.map (fun p => (p.1, (p.2 : ℚ) / total))

/-- Embedding of `AINMemoryBridge._calculate_integration_average`
(ain_integration.py lines 386-392). -/
def calculate_integration_average (memories : List AINMemoryPayload) : ℚ :=
  if memories.isEmpty then 0
  else (memories.map (fun memory => memory.integration_level)).sum / (memories.length : ℚ)

/-- The transformation word table of `_assess_transformation_readiness`
(ain_integration.py line 366). -/
def transformation_words : List String :=
  ["change", "transform", "ready", "new", "release", "let go"]

/-- Embedding of `AINMemoryBridge._check_symbol_evolution`
(ain_integration.py lines 546-555). -/
def check_symbol_evolution (bridge : AINMemoryBridge) (user_id : String) : Bool :=
  let user_threads := (dget bridge.symbolic_threads user_id).getD []
  let evolving_symbols := (user_threads.filter (fun p =>
    decide (p.2.appearances.length > 3) &&
    decide (p.2.phase_associations.length > 1))).length
  evolving_symbols ≥ 2

/-- Embedding of `AINMemoryBridge._get_phase_duration`
(ain_integration.py lines 557-560): a hard-coded placeholder of 7 days. -/
def get_phase_duration (_user_id : String) : Nat := 7

/-- Embedding of `AINMemoryBridge._assess_transformation_readiness`
(ain_integration.py lines 354-384). -/
def assess_transformation_readiness (bridge : AINMemoryBridge) (user_id : String) :
    TransformationAssessment :=
  let memories := (dget bridge.memory_store user_id).getD []
  if memories.length < 5 then .insufficient
  else
    let recent_memories := lastN memories 10
    let avg_integration := calculate_integration_average recent_memories
    let transformation_mentions := (recent_memories.filter (fun memory =>
      transformation_words.any
        (fun word => strContains memory.content.user_input.toLower word))).length
    let symbol_evolution := check_symbol_evolution bridge user_id
    .assessed (decide (avg_integration > 0.75) && decide (transformation_mentions ≥ 3))
      avg_integration transformation_mentions symbol_evolution
      (get_phase_duration user_id)

/-- Embedding of `AINMemoryBridge.retrieve_user_context`
(ain_integration.py lines 112-150). -/
def retrieve_user_context (bridge : AINMemoryBridge) (user_id : String) :
    RetrievedContext :=
  let memories := (dget bridge.memory_store user_id).getD []
  let recent_memories := if memories.length > 10 then lastN memories 10 else memories
  let recent_symbols := recent_memories.foldl
    (fun acc memory =>
      if pyTruthyStr memory.content.symbolic_image then
        acc ++ extract_symbols_from_image (memory.content.symbolic_image.getD "")
      else acc)
    []
  let user_arcs := (dget bridge.narrative_arcs user_id).getD []
  let active_narratives := (user_arcs.filter
      (fun arc => arc.completion_percentage < 0.9)).map
    (fun arc => { title := arc.title, current_chapter := arc.current_chapter,
                  tensions := arc.active_tensions : ActiveNarrative })
  { recent_symbols := recent_symbols,
    active_narratives := active_narratives,
    elemental_balance := calculate_elemental_balance recent_memories,
    transformation_indicators := assess_transformation_readiness bridge user_id,
    memory_depth := memories.length,
    integration_average := calculate_integration_average recent_memories }

/-- The attributes of a `PhaseGatingSystem` instance: the four instance
attributes set in `__init__` (phase_gating.py lines 52-56) and the methods of
the class body (phase_gating.py lines 49-491).  The class defines no
`get_phase`. -/
def phaseGatingSystemAttrs : List String :=
  ["phase_gates", "phase_behaviors", "user_phase_data", "phase_archetypes",
   "__init__", "_initialize_phase_gates", "_initialize_phase_behaviors",
   "_initialize_phase_archetypes", "check_phase_transition", "transition_phase",
   "get_phase_guidance", "record_breakthrough"]

/-- The attributes of a `SpiralTracker` instance (agents/base.py lines
243-267): this unrelated class is the one that defines `get_phase`. -/
def spiralTrackerAttrs : List String :=
  ["user_phases", "phase_transitions", "__init__", "get_phase", "update",
   "_define_transitions"]

/-- A Python `AttributeError` carrying the object's class and the missing
attribute name. -/
structure PyAttrError where
  obj : String
  attr : String
deriving DecidableEq, Repr

/-- An entry of the ritual sequence `generate_ritual_sequence` would build
(ain_integration.py lines 261-295). -/
structure RitualStep where
  element : Element
  purpose : String
  duration : String
  key_action : String
  symbols : List String := []

/-- Python attribute lookup against an attribute table. -/
def pyGetattr (attrs : List String) (cls : String) (name : String) :
    Except PyAttrError Unit :=
  if name ∈ attrs then .ok () else .error { obj := cls, attr := name }

/-- Embedding of `AINMemoryBridge.generate_ritual_sequence`
(ain_integration.py lines 245-297).  Line 250 computes the user context;
line 251 evaluates `self.phase_gating.get_phase(user_id)`, an attribute
lookup on the `PhaseGatingSystem` instance, which raises `AttributeError`
because the class defines no `get_phase`.  The statements after line 251
(lines 253-297, building the four ritual steps) are unreachable and are
modelled by the empty continuation. -/
def generate_ritual_sequence (bridge : AINMemoryBridge)
    (user_id _intention : String) : Except PyAttrError (List RitualStep) :=
  let _context := retrieve_user_context bridge user_id
  match pyGetattr phaseGatingSystemAttrs "PhaseGatingSystem" "get_phase" with
  | .error e => .error e
  | .ok _ => .ok []

instance : Inhabited SymbolicThread := ⟨{ symbol := "", first_appearance := 0 }⟩

/-- An arc with no active tensions and no oracle guidance. -/
def emptyTensionArc : NarrativeArc :=
  { arc_id := "u_growth_0", title := "growth",
    beginning := { timestamp := 0, trigger := "grow", initial_guidance := "g" },
    current_chapter := "Beginning" }

/-- A response whose symbolic image mentions a phoenix. -/
def phoenixResponse : OracleResponse :=
  { element := .FIRE, phase := .INITIATION, message := "the phoenix rises",
    symbolic_image := some "a phoenix" }

/-- A user context in Initiation. -/
def initiationCtx : UserContext := { current_phase := .INITIATION }

/-- A user context in Exploration. -/
def explorationCtx : UserContext := { current_phase := .EXPLORATION }

/-- Thread dictionary after recording the phoenix symbol in Initiation. -/
def phoenixThreads1 : List (String × SymbolicThread) :=
  (updateSymbolThread [] "phoenix" phoenixResponse initiationCtx 1).getD []

/-- Thread dictionary after then recording the phoenix in Exploration. -/
def phoenixThreads2 : List (String × SymbolicThread) :=
  (updateSymbolThread phoenixThreads1 "phoenix" phoenixResponse explorationCtx 2).getD []

/-- Thread dictionary after then recording the phoenix in Initiation again. -/
def phoenixThreads3 : List (String × SymbolicThread) :=
  (updateSymbolThread phoenixThreads2 "phoenix" phoenixResponse initiationCtx 3).getD []

/-- The phoenix thread after the three recordings. -/
def phoenixThread : SymbolicThread :=
  (dget phoenixThreads3 "phoenix").getD default

/-- A collective-field record that carries the raw user id and content. -/
def leakyFieldData : PatternData :=
  [("user_id", .str "alice"), ("content", .str "raw interaction text"),
   ("element", .str "fire"), ("resonance", .num 0.9)]

/-- A response whose collective_field_data is `leakyFieldData`. -/
def leakyResponse : OracleResponse :=
  { element := .FIRE, phase := .INITIATION, message := "m",
    collective_field_data := some leakyFieldData }

/-- An anonymized pattern record with archetype, element and resonance. -/
def samplePattern : PatternData :=
  [("archetype", .str "Seeker"), ("element", .str "fire"), ("resonance", .num 0.8)]

/-! Dictionary lemmas. -/

theorem dmem_eq_isSome_dget {α β : Type} [DecidableEq α] (d : List (α × β)) (k : α) :
    dmem d k = (dget d k).isSome := by
  induction d with
  | nil => rfl
  | cons p rest ih =>
    by_cases h : p.1 = k <;> simp [dmem, dget, h, ih]

theorem dget_append {α β : Type} [DecidableEq α] (d₁ d₂ : List (α × β)) (k : α) :
    dget (d₁ ++ d₂) k = ((dget d₁ k).orElse (fun _ => dget d₂ k)) := by
  induction d₁ with
  | nil => simp [dget]
  | cons p rest ih =>
    by_cases h : p.1 = k <;> simp [dget, h, ih, Option.orElse]

theorem dget_dreplace {α β : Type} [DecidableEq α] (d : List (α × β)) (k : α) (v : β)
    (k' : α) :
    dget (dreplace d k v) k' =
      if k' = k then (if dmem d k then some v else none) else dget d k' := by
  induction d with
  | nil => simp [dreplace, dget, dmem]
  | cons p rest ih =>
    simp only [dreplace, dmem]
    by_cases hpk : p.1 = k
    · by_cases hk : k' = k
      · subst hk
        simp [dget, hpk, ih]
      · have hk2 : ¬k = k' := fun h => hk h.symm
        have hpk' : ¬p.1 = k' := hpk ▸ hk2
        simp [dget, hpk, hk, hk2, hpk', ih]
    · by_cases hk : k' = k
      · subst hk
        have hpk' : ¬p.1 = k' := hpk
        simp [dget, hpk, hpk', ih]
      · by_cases hpk' : p.1 = k' <;> simp [dget, hpk, hk, hpk', ih]

theorem dget_dset {α β : Type} [DecidableEq α] (d : List (α × β)) (k : α) (v : β)
    (k' : α) :
    dget (dset d k v) k' = if k' = k then some v else dget d k' := by
  unfold dset
  by_cases hmem : dmem d k = true
  · rw [if_pos hmem, dget_dreplace]
    by_cases hk : k' = k <;> simp [hk, hmem]
  · rw [if_neg hmem, dget_append]
    have hnone : dget d k = none := by
      rw [dmem_eq_isSome_dget] at hmem
      cases hd : dget d k with
      | none => rfl
      | some w => rw [hd] at hmem; simp at hmem
    by_cases hk : k' = k
    · subst hk
      rw [hnone]
      simp [Option.orElse, dget]
    · have hk2 : ¬k = k' := fun h => hk h.symm
      cases hd : dget d k' with
      | none => simp [Option.orElse, dget, hk, hk2]
      | some w => simp [hk, Option.orElse]

/-! Lemmas about the condition loop of `check_phase_transition`. -/

theorem condFold_required_stays_false (ctx : Ctx) (l : List PhaseTransitionCondition)
    (acc : CondAcc) (h : acc.required_met = false) :
    (l.foldl (condStep ctx) acc).required_met = false := by
  induction l generalizing acc with
  | nil => exact h
  | cons c rest ih =>
    simp only [List.foldl_cons]
    apply ih
    unfold condStep
    by_cases hchk : c.check_function ctx = true
    · simp [hchk, h]
    · by_cases hreq : c.required = true <;>
        simp [hchk, hreq, h]

theorem condFold_required_false_of_unmet (ctx : Ctx) (l : List PhaseTransitionCondition)
    (acc : CondAcc) (c : PhaseTransitionCondition) (hc : c ∈ l)
    (hreq : c.required = true) (hchk : c.check_function ctx = false) :
    (l.foldl (condStep ctx) acc).required_met = false := by
  induction l generalizing acc with
  | nil => cases hc
  | cons c₀ rest ih =>
    simp only [List.foldl_cons]
    rcases List.mem_cons.mp hc with heq | hmem
    · subst heq
      apply condFold_required_stays_false
      unfold condStep
      simp [hchk, hreq]
    · exact ih _ hmem

/-- C2: for every user state, gate and context, if some `required` condition of
the gate applicable to the user's current phase evaluates to false on the
context, then `check_phase_transition` returns no transition, regardless of the
weight the remaining conditions accumulate. -/
theorem required_condition_unmet_blocks_transition
    (data : UserMap) (user_id : String) (ctx : Ctx) (now : ℚ)
    (user_data : UserPhaseData) (gate : PhaseGate)
    (hud : dget data user_id = some user_data)
    (hgate : findGate phase_gates user_data.current_phase = some gate)
    (c : PhaseTransitionCondition) (hc : c ∈ gate.conditions)
    (hreq : c.required = true) (hchk : c.check_function ctx = false) :
    (check_phase_transition data user_id ctx now).1 = none := by
  simp only [check_phase_transition, hud, hgate]
  by_cases hdur : now - user_data.phase_entry_time < gate.minimum_duration
  · simp [hdur]
  · have hfold := condFold_required_false_of_unmet ctx gate.conditions
      { required_met := true, achieved_weight := 0, total_weight := 0,
        completed := user_data.completed_conditions } c hc hreq hchk
    simp [hdur, hfold]

/-- Witness for C2: the spec's own scenario, context `{vision_clarity: 0.5,
actions_taken: 1, commitment_level: 0.7}` fails the required
`vision_clarified` condition, and evaluation at day 3 returns none. -/
theorem required_condition_unmet_blocks_transition_witness :
    (check_phase_transition sampleMap "u" lowVisionCtx 3).1 = none := by
  apply required_condition_unmet_blocks_transition sampleMap "u" lowVisionCtx 3
    sampleUser initiationGate rfl rfl initiationGate.conditions.headI
  · simp [initiationGate, findGate, phase_gates]
  · rfl
  · norm_num [initiationGate, findGate, phase_gates, Ctx.get, dget, lowVisionCtx]

/-- C1 counterexample: in the spec's end-to-end scenario (user enters
Initiation at time 0, evaluated at day 3 with context `{vision_clarity: 0.8,
actions_taken: 1, commitment_level: 0.7}`), `check_phase_transition` does not
return Exploration — it returns none. -/
theorem initiation_scenario_counterexample :
    (check_phase_transition sampleMap "u" sampleCtx 3).1 = none ∧
    (check_phase_transition sampleMap "u" sampleCtx 3).1 ≠ some SpiralPhase.EXPLORATION := by
  have h : (check_phase_transition sampleMap "u" sampleCtx 3).1 = none := by
    simp [check_phase_transition, sampleMap, sampleUser, sampleCtx, dget, dset, dmem,
      dreplace, findGate, phase_gates, condStep, Ctx.get]
    norm_num
    try simp [dget, dset, dmem, dreplace]
    try norm_num
  exact ⟨h, by simp [h]⟩

/-- C1 (amended): in the end-to-end scenario all three gate conditions are
satisfied, the minimum duration of 3 days is met, and the readiness
4.5/4.5 = 1.0 clears 0.7; nevertheless evaluation returns none, because the
gate's default `collective_resonance_threshold` of 0.7 is nonzero and the
context's `collective_resonance` signal (absent, hence 0) is below it.
Supplying `collective_resonance: 0.7` makes the same call return
Exploration. -/
theorem initiation_scenario_blocked_by_collective_resonance :
    findGate phase_gates SpiralPhase.INITIATION = some initiationGate ∧
    initiationGate.conditions.all (fun c => c.check_function sampleCtx) = true ∧
    initiationGate.minimum_duration ≤ 3 - sampleUser.phase_entry_time ∧
    initiationGate.collective_resonance_threshold = 0.7 ∧
    Ctx.get sampleCtx "collective_resonance" = 0 ∧
    (check_phase_transition sampleMap "u" sampleCtx 3).1 = none ∧
    (check_phase_transition sampleMap "u" (("collective_resonance", 0.7) :: sampleCtx) 3).1
      = some SpiralPhase.EXPLORATION := by
  refine ⟨rfl, ?_, ?_, rfl, ?_, ?_, ?_⟩
  · simp [initiationGate, findGate, phase_gates, Ctx.get, dget, sampleCtx]
    norm_num
  · norm_num [initiationGate, findGate, phase_gates, sampleUser]
  · simp [Ctx.get, dget, sampleCtx]
  · simp [check_phase_transition, sampleMap, sampleUser, sampleCtx, dget, dset, dmem,
      dreplace, findGate, phase_gates, condStep, Ctx.get]
    norm_num
    try simp [dget, dset, dmem, dreplace]
    try norm_num
  · simp [check_phase_transition, sampleMap, sampleUser, sampleCtx, dget, dset, dmem,
      dreplace, findGate, phase_gates, condStep, Ctx.get]
    norm_num
    try simp [dget, dset, dmem, dreplace]
    try norm_num

/-- C3 counterexample: in the Initiation scenario, `check_phase_transition`
does mutate the user's `UserPhaseData` — it records the three met conditions
in `completed_conditions`, which changes from the empty dictionary. -/
theorem evaluate_mutates_completed_conditions_counterexample :
    (dget (check_phase_transition sampleMap "u" sampleCtx 3).2 "u").map
        (fun ud => ud.completed_conditions)
      = some [("vision_clarified", true), ("first_action_taken", true),
              ("commitment_declared", true)] ∧
    (dget sampleMap "u").map (fun ud => ud.completed_conditions) = some [] := by
  constructor
  · simp [check_phase_transition, sampleMap, sampleUser, sampleCtx, dget, dset, dmem,
      dreplace, findGate, phase_gates, condStep, Ctx.get]
    norm_num
    try simp [dget, dset, dmem, dreplace]
    try norm_num
  · simp [sampleMap, sampleUser, dget]

/-- C3 (amended): `check_phase_transition` mutates at most the evaluated
user's `completed_conditions`; every other field of every user's
`UserPhaseData` — user_id, current_phase, phase_entry_time, phase_history,
spiral_count, phase_resonance, breakthrough_moments — is unchanged, for every
user id. -/
theorem check_phase_transition_frame (data : UserMap) (user_id : String)
    (ctx : Ctx) (now : ℚ) (uid : String) :
    (dget (check_phase_transition data user_id ctx now).2 uid).map frameFields
      = (dget data uid).map frameFields := by
  cases hud : dget data user_id with
  | none => simp only [check_phase_transition, hud]
  | some ud =>
    cases hgate : findGate phase_gates ud.current_phase with
    | none => simp only [check_phase_transition, hud, hgate]
    | some gate =>
      by_cases hdur : now - ud.phase_entry_time < gate.minimum_duration
      · simp only [check_phase_transition, hud, hgate, if_pos hdur]
      · simp only [check_phase_transition, hud, hgate, if_neg hdur]
        rw [dget_dset]
        by_cases huid : uid = user_id
        · subst huid
          rw [if_pos rfl, hud]
          rfl
        · rw [if_neg huid]

/-- C5 counterexample: evaluating a user with no stored phase state does not
lazily create any state — after the call the user still has no entry in
`user_phase_data` (and the call returns none). -/
theorem evaluate_fresh_user_counterexample :
    (check_phase_transition [] "newuser" [] 0).1 = none ∧
    dget (check_phase_transition [] "newuser" [] 0).2 "newuser" = none := by
  constructor <;> simp [check_phase_transition, dget]

/-- C5 (amended): for a user with no stored phase state,
`check_phase_transition` returns none and leaves the state dictionary
untouched (no lazy creation), `transition_phase` is a no-op, and the separate
`SpiralTracker.get_phase` reports Initiation by default without creating
state. -/
theorem missing_user_state_not_created
    (data : UserMap) (user_id : String) (ctx : Ctx) (now : ℚ)
    (new_phase : SpiralPhase) (rc : Bool)
    (user_phases : List (String × SpiralPhase))
    (h : dget data user_id = none) (h2 : dget user_phases user_id = none) :
    check_phase_transition data user_id ctx now = (none, data) ∧
    transition_phase data user_id new_phase rc now = data ∧
    SpiralTracker.get_phase user_phases user_id = SpiralPhase.INITIATION := by
  refine ⟨?_, ?_, ?_⟩
  · unfold check_phase_transition
    rw [h]
  · unfold transition_phase
    rw [h]
  · unfold SpiralTracker.get_phase
    rw [h2]
    rfl

/-- Witness for C5 (amended) at the empty state with user "w". -/
theorem missing_user_state_not_created_witness :
    check_phase_transition [] "w" [] 0 = (none, []) ∧
    transition_phase [] "w" SpiralPhase.EXPLORATION false 0 = [] ∧
    SpiralTracker.get_phase [] "w" = SpiralPhase.INITIATION :=
  missing_user_state_not_created [] "w" [] 0 SpiralPhase.EXPLORATION false [] rfl rfl

/-- C6: `transition_phase` changes no other user's entry at all (hence no
other user's spiral_count), and the transitioned user's spiral_count becomes
spiral_count + 1 exactly when the transition is Transcendence → Initiation,
and stays unchanged for every other pair of phases. -/
theorem transition_phase_spiral_count
    (data : UserMap) (user_id : String) (new_phase : SpiralPhase) (rc : Bool) (now : ℚ) :
    (∀ uid, uid ≠ user_id →
      dget (transition_phase data user_id new_phase rc now) uid = dget data uid) ∧
    (∀ ud, dget data user_id = some ud →
      (dget (transition_phase data user_id new_phase rc now) user_id).map
          (fun u => u.spiral_count) =
        some (if ud.current_phase = SpiralPhase.TRANSCENDENCE ∧
                 new_phase = SpiralPhase.INITIATION
              then ud.spiral_count + 1 else ud.spiral_count)) := by
  constructor
  · intro uid huid
    unfold transition_phase
    cases hud : dget data user_id with
    | none => rfl
    | some ud => rw [dget_dset, if_neg huid]
  · intro ud hud
    unfold transition_phase
    rw [hud]
    simp only []
    rw [dget_dset, if_pos rfl]
    rfl

/-- Witness for C6: in a two-user state, moving "u" from Transcendence to
Initiation bumps u's spiral_count from 1 to 2 and leaves v's entry intact. -/
theorem transition_phase_spiral_count_witness :
    dget (transition_phase sampleMap2 "u" SpiralPhase.INITIATION false 3) "v"
      = dget sampleMap2 "v" ∧
    (dget (transition_phase sampleMap2 "u" SpiralPhase.INITIATION false 3) "u").map
        (fun u => u.spiral_count) = some 2 := by
  refine ⟨(transition_phase_spiral_count sampleMap2 "u" SpiralPhase.INITIATION false 3).1
    "v" (by decide), ?_⟩
  have h := (transition_phase_spiral_count sampleMap2 "u" SpiralPhase.INITIATION false 3).2
    { user_id := "u", current_phase := .TRANSCENDENCE, phase_entry_time := 0 } (by rfl)
  simpa using h

/-- C4 counterexample: for an arc with no active tensions and no oracle
guidance the code short-circuits to 1.0, while the claimed formula
(resolved_tension_ratio + guidance_depth_factor)/2 with ratio 1.0 for no
tensions gives (1.0 + 0)/2 = 0.5; the two disagree. -/
theorem arc_completion_formula_counterexample :
    calculate_arc_completion emptyTensionArc = 1 ∧
    specArcCompletion emptyTensionArc = 1/2 ∧
    calculate_arc_completion emptyTensionArc ≠ specArcCompletion emptyTensionArc := by
  have h1 : calculate_arc_completion emptyTensionArc = 1 := by
    norm_num [calculate_arc_completion, emptyTensionArc]
  have h2 : specArcCompletion emptyTensionArc = 1/2 := by
    norm_num [specArcCompletion, emptyTensionArc, min_def]
  refine ⟨h1, h2, ?_⟩
  rw [h1, h2]
  norm_num

/-- C4 (amended): the spec's averaging formula is what the code computes only
when active_tensions is nonempty; with no active tensions the code returns
1.0 directly (skipping the average), so an arc with zero active tensions has
completion 1.0, which in particular is ≥ 0.5. -/
theorem arc_completion_formula (arc : NarrativeArc) :
    calculate_arc_completion arc =
      (if arc.active_tensions.isEmpty then 1 else specArcCompletion arc) ∧
    (arc.active_tensions.isEmpty = true →
      calculate_arc_completion arc = 1 ∧ (1/2 : ℚ) ≤ calculate_arc_completion arc) := by
  have hmain : calculate_arc_completion arc =
      (if arc.active_tensions.isEmpty then 1 else specArcCompletion arc) := by
    unfold calculate_arc_completion specArcCompletion
    by_cases h : arc.active_tensions.isEmpty
    · simp [h]
      norm_num
    · have hne : arc.active_tensions ≠ [] := by
        simpa [List.isEmpty_iff] using h
      have hlen : 0 < arc.active_tensions.length := List.length_pos.mpr hne
      simp only [h, if_false, Bool.false_eq_true]
      rw [if_pos hlen]
      norm_num
  refine ⟨hmain, fun h => ?_⟩
  rw [hmain, if_pos h]
  norm_num

/-- Witness for C4 (amended) at the concrete zero-tension arc. -/
theorem arc_completion_formula_witness :
    calculate_arc_completion emptyTensionArc = 1 ∧
    (1/2 : ℚ) ≤ calculate_arc_completion emptyTensionArc :=
  (arc_completion_formula emptyTensionArc).2 rfl

/-- C7 counterexample: the phoenix symbol recorded in Initiation, then
Exploration, then Initiation again: the most recently associated phase is
Initiation (the last appearance's phase), yet the recomputed meaning
references Exploration, because `phases[-1]` is the last phase in the
counter's insertion order — the phase whose FIRST association is most
recent. -/
theorem symbol_meaning_counterexample :
    phoenixThread.current_meaning = "phoenix evolving through exploration" ∧
    (phoenixThread.appearances.map (fun a => a.phase)).getLast?
      = some SpiralPhase.INITIATION ∧
    phoenixThread.current_meaning ≠ "phoenix evolving through initiation" := by
  refine ⟨?_, ?_, ?_⟩ <;> decide

theorem opt_eq_some_getD {α : Type} (x : Option α) (d : α) (h : x.isSome = true) :
    x = some (x.getD d) := by
  cases x with
  | none => cases h
  | some a => rfl

theorem dset_ne_nil {α β : Type} [DecidableEq α] (d : List (α × β)) (k : α) (v : β) :
    dset d k v ≠ [] := by
  unfold dset
  by_cases h : dmem d k = true
  · rw [if_pos h]
    cases d with
    | nil => simp [dmem] at h
    | cons p rest => simp [dreplace]
  · rw [if_neg h]
    simp

theorem interpret_isSome (t : SymbolicThread)
    (hel : t.elemental_associations ≠ [])
    (hph : t.phase_associations ≠ []) :
    (interpret_symbol_evolution t).isSome = true := by
  simp only [interpret_symbol_evolution]
  by_cases h2 : t.appearances.length < 2
  · simp [h2]
  · rw [if_neg h2]
    by_cases hgt : (t.phase_associations.map Prod.fst).length > 1
    · rw [if_pos hgt, Option.isSome_map']
      rw [List.getLast?_isSome]
      simpa using hph
    · rw [if_neg hgt, Option.isSome_map']
      cases he : t.elemental_associations with
      | nil => exact absurd he hel
      | cons p rest => simp [pyMaxKey]

theorem updateSymbolThread_isSome (threads : List (String × SymbolicThread))
    (symbol : String) (resp : OracleResponse) (context : UserContext) (now : ℚ) :
    (updateSymbolThread threads symbol resp context now).isSome = true := by
  simp only [updateSymbolThread]
  have hsome : (dget (if dmem threads symbol then threads
      else dset threads symbol { symbol := symbol, first_appearance := now })
        symbol).isSome = true := by
    by_cases h : dmem threads symbol = true
    · rw [if_pos h]
      rw [dmem_eq_isSome_dget] at h
      exact h
    · rw [if_neg h, dget_dset, if_pos rfl]
      rfl
  obtain ⟨thread, hth⟩ := Option.isSome_iff_exists.mp hsome
  rw [hth, Option.isSome_map']
  exact interpret_isSome _ (dset_ne_nil _ _ _) (dset_ne_nil _ _ _)

theorem updateSymbolsFold_isSome (resp : OracleResponse) (context : UserContext)
    (now : ℚ) (symbols : List String) :
    ∀ threads, (updateSymbolsFold resp context now threads symbols).isSome = true := by
  induction symbols with
  | nil => intro threads; rfl
  | cons s rest ih =>
    intro threads
    simp only [updateSymbolsFold]
    obtain ⟨t1, h1⟩ := Option.isSome_iff_exists.mp
      (updateSymbolThread_isSome threads s resp context now)
    rw [h1]
    exact ih t1

theorem update_symbolic_threads_isSome
    (all_threads : List (String × List (String × SymbolicThread)))
    (user_id : String) (resp : OracleResponse) (context : UserContext) (now : ℚ) :
    (update_symbolic_threads all_threads user_id resp context now).isSome = true := by
  simp only [update_symbolic_threads, Option.isSome_map']
  exact updateSymbolsFold_isSome resp context now _ _

theorem interpret_branches (t : SymbolicThread) (m : String)
    (hint : interpret_symbol_evolution t = some m) :
    (2 ≤ t.appearances.length → 1 < t.phase_associations.length →
      some m = (t.phase_associations.map Prod.fst).getLast?.map
        (fun p => t.symbol ++ " evolving through " ++ p.value)) ∧
    (2 ≤ t.appearances.length → t.phase_associations.length ≤ 1 →
      some m = (pyMaxKey t.elemental_associations).map
        (fun e => t.symbol ++ " resonating with " ++ e.value ++ " energy")) := by
  constructor
  · intro h2 hgt
    rw [← hint]
    simp only [interpret_symbol_evolution]
    rw [if_neg (by omega), if_pos (by simpa using hgt)]
  · intro h2 hle
    rw [← hint]
    simp only [interpret_symbol_evolution]
    rw [if_neg (by omega), if_neg (by simp; omega)]

/-- C7 (amended): after a symbol is recorded via the per-symbol body of
`_update_symbolic_threads`, the stored thread's current_meaning is exactly
what `_interpret_symbol_evolution` computes on the updated thread; on the
second or later appearance it references the LAST phase in the association
counter's insertion order (the phase whose first association is most recent,
not the most recently associated phase) when more than one phase is present,
and otherwise the first element attaining the maximal association count. -/
theorem symbol_meaning_recomputation
    (threads : List (String × SymbolicThread)) (symbol : String)
    (resp : OracleResponse) (context : UserContext) (now : ℚ)
    (threads1 : List (String × SymbolicThread)) (t1 : SymbolicThread)
    (hup : updateSymbolThread threads symbol resp context now = some threads1)
    (ht : dget threads1 symbol = some t1) :
    interpret_symbol_evolution t1 = some t1.current_meaning ∧
    (2 ≤ t1.appearances.length → 1 < t1.phase_associations.length →
      some t1.current_meaning = (t1.phase_associations.map Prod.fst).getLast?.map
        (fun p => t1.symbol ++ " evolving through " ++ p.value)) ∧
    (2 ≤ t1.appearances.length → t1.phase_associations.length ≤ 1 →
      some t1.current_meaning = (pyMaxKey t1.elemental_associations).map
        (fun e => t1.symbol ++ " resonating with " ++ e.value ++ " energy")) := by
  simp only [updateSymbolThread] at hup
  cases hg : dget (if dmem threads symbol then threads
      else dset threads symbol { symbol := symbol, first_appearance := now }) symbol with
  | none =>
    rw [hg] at hup
    cases hup
  | some thread =>
    rw [hg] at hup
    obtain ⟨meaning, hint, hthreads1⟩ := Option.map_eq_some'.mp hup
    rw [← hthreads1, dget_dset, if_pos rfl] at ht
    have ht1 := (Option.some.inj ht).symm
    have hmean : interpret_symbol_evolution t1 = some t1.current_meaning := by
      rw [ht1]
      exact hint
    exact ⟨hmean, interpret_branches t1 t1.current_meaning hmean⟩

/-- Witness for C7 (amended): the third phoenix recording, where the stored
meaning references Exploration, the final key in insertion order. -/
theorem symbol_meaning_recomputation_witness :
    interpret_symbol_evolution phoenixThread = some phoenixThread.current_meaning ∧
    some phoenixThread.current_meaning
      = (phoenixThread.phase_associations.map Prod.fst).getLast?.map
          (fun p => phoenixThread.symbol ++ " evolving through " ++ p.value) := by
  have hup : updateSymbolThread phoenixThreads2 "phoenix" phoenixResponse initiationCtx 3
      = some phoenixThreads3 :=
    opt_eq_some_getD _ []
      (updateSymbolThread_isSome phoenixThreads2 "phoenix" phoenixResponse initiationCtx 3)
  have ht : dget phoenixThreads3 "phoenix" = some phoenixThread :=
    opt_eq_some_getD _ default (by decide)
  have h := symbol_meaning_recomputation phoenixThreads2 "phoenix" phoenixResponse
    initiationCtx 3 phoenixThreads3 phoenixThread hup ht
  exact ⟨h.1, h.2.1 (by decide) (by decide)⟩

/-- C8 counterexample: an interaction whose response carries
collective_field_data holding the raw user id and interaction content is
forwarded to the aggregator verbatim — the rolling log then contains the
user_id and content keys, so the forwarded record is not restricted to
theme/element/resonance fields. -/
theorem store_forwards_user_id_counterexample :
    ((store_oracle_interaction {} "alice" leakyResponse "raw interaction text"
        initiationCtx 0).1.collective_patterns.patterns.map (fun e => e.data))
      = [leakyFieldData] ∧
    dget leakyFieldData "user_id" = some (.str "alice") ∧
    dget leakyFieldData "content" = some (.str "raw interaction text") := by
  refine ⟨?_, rfl, rfl⟩
  rfl

/-- C8 (amended): `store_oracle_interaction` performs no anonymization or
filtering: the records it hands to `CollectivePatternTracker.add_pattern` are
exactly `oracle_response.collective_field_data` (when truthy, else nothing),
so they never include the call's user_id or raw content unless the caller
already placed them in collective_field_data — and are restricted to
theme/element/resonance only when the caller's record is.  In particular the
aggregator state after the call does not depend on the user_id or user_input
arguments. -/
theorem store_forwards_collective_field_verbatim
    (bridge : AINMemoryBridge) (user_id : String) (resp : OracleResponse)
    (user_input : String) (context : UserContext) (now : ℚ) :
    (store_oracle_interaction bridge user_id resp user_input context now).1.collective_patterns
      = (collectiveEmission resp).foldl (fun t pd => (add_pattern t pd now).1)
          bridge.collective_patterns ∧
    ∀ uid2 input2 : String,
      (store_oracle_interaction bridge uid2 resp input2 context now).1.collective_patterns
        = (store_oracle_interaction bridge user_id resp user_input context now).1.collective_patterns := by
  have key : ∀ uid input : String,
      (store_oracle_interaction bridge uid resp input context now).1.collective_patterns
        = (collectiveEmission resp).foldl (fun t pd => (add_pattern t pd now).1)
            bridge.collective_patterns := by
    intro uid input
    obtain ⟨threads1, hth⟩ := Option.isSome_iff_exists.mp
      (update_symbolic_threads_isSome bridge.symbolic_threads uid resp context now)
    simp only [store_oracle_interaction, hth]
    by_cases hcf : pyTruthyDict resp.collective_field_data = true
    · simp [hcf, collectiveEmission]
    · simp [hcf, collectiveEmission]
  exact ⟨key user_id user_input,
    fun uid2 input2 => (key uid2 input2).trans (key user_id user_input).symm⟩

theorem lastN_length_le {α : Type} (xs : List α) (n : Nat) : (lastN xs n).length ≤ n := by
  unfold lastN
  rw [List.length_drop]
  omega

theorem lastN_suffix {α : Type} (xs : List α) (n : Nat) : lastN xs n <:+ xs :=
  List.drop_suffix _ _

/-- C9: `add_pattern` keeps the rolling log at ≤ 1000 entries and every
per-element resonance trend at ≤ 100 entries, and whichever list it changes
it changes by appending the new entry and keeping a suffix — the most recent
entries — so any dropped entries are the oldest. -/
theorem add_pattern_bounds (t : CollectivePatternTracker) (pattern_data : PatternData)
    (now : ℚ) :
    (t.patterns.length ≤ 1000 →
      (add_pattern t pattern_data now).1.patterns.length ≤ 1000) ∧
    (∀ e, (t.elemental_trends e).length ≤ 100 →
      ((add_pattern t pattern_data now).1.elemental_trends e).length ≤ 100) ∧
    ((add_pattern t pattern_data now).1.patterns = t.patterns ∨
      (add_pattern t pattern_data now).1.patterns <:+
        t.patterns ++ [{ timestamp := now, data := pattern_data }]) ∧
    (∀ e, (add_pattern t pattern_data now).1.elemental_trends e = t.elemental_trends e ∨
      ∃ r, (add_pattern t pattern_data now).1.elemental_trends e <:+
        t.elemental_trends e ++ [r]) := by
  have happend : ∀ t' : CollectivePatternTracker,
      (appendPatternEntry t' pattern_data now).patterns.length ≤ 1000 ∧
      (appendPatternEntry t' pattern_data now).patterns <:+
        t'.patterns ++ [{ timestamp := now, data := pattern_data }] ∧
      (appendPatternEntry t' pattern_data now).elemental_trends = t'.elemental_trends := by
    intro t'
    simp only [appendPatternEntry]
    by_cases hlen :
        (t'.patterns ++ [({ timestamp := now, data := pattern_data } : PatternEntry)]).length
          > 1000
    · rw [if_pos hlen]
      exact ⟨lastN_length_le _ 1000, lastN_suffix _ 1000, trivial⟩
    · rw [if_neg hlen]
      exact ⟨by omega, List.suffix_refl _, trivial⟩
  unfold add_pattern
  cases harch : dget pattern_data "archetype" <;>
  · simp only []
    split
    · split
      · exact ⟨fun h => h, fun e h => h, Or.inl rfl, fun e => Or.inl rfl⟩
      · next element hpe =>
          refine ⟨fun _ => (happend _).1, fun e h => ?_, Or.inr (happend _).2.1,
            fun e => ?_⟩
          · rw [(happend _).2.2]
            dsimp only
            by_cases he : e = element
            · subst he
              rw [if_pos rfl]
              by_cases hl :
                  (t.elemental_trends e ++
                      [(dget pattern_data "resonance").getD (.num 0)]).length > 100
              · rw [if_pos hl]
                exact lastN_length_le _ 100
              · rw [if_neg hl]
                omega
            · rw [if_neg he]
              exact h
          · rw [(happend _).2.2]
            dsimp only
            by_cases he : e = element
            · subst he
              rw [if_pos rfl]
              refine Or.inr ⟨(dget pattern_data "resonance").getD (.num 0), ?_⟩
              by_cases hl :
                  (t.elemental_trends e ++
                      [(dget pattern_data "resonance").getD (.num 0)]).length > 100
              · rw [if_pos hl]
                exact lastN_suffix _ 100
              · rw [if_neg hl]
            · rw [if_neg he]
              exact Or.inl rfl
    · refine ⟨fun _ => (happend _).1, fun e h => ?_, Or.inr (happend _).2.1, fun e => ?_⟩
      · rw [(happend _).2.2]
        exact h
      · rw [(happend _).2.2]
        exact Or.inl rfl

/-- Witness for C9: adding one anonymized record to the empty tracker keeps
both bounds and appends the record. -/
theorem add_pattern_bounds_witness :
    (add_pattern {} samplePattern 0).1.patterns.length ≤ 1000 ∧
    ((add_pattern {} samplePattern 0).1.elemental_trends .FIRE).length ≤ 100 ∧
    ((add_pattern {} samplePattern 0).1.patterns
        = ({} : CollectivePatternTracker).patterns ∨
      (add_pattern {} samplePattern 0).1.patterns <:+
        ({} : CollectivePatternTracker).patterns ++ [{ timestamp := 0, data := samplePattern }]) := by
  have h := add_pattern_bounds {} samplePattern 0
  exact ⟨h.1 (by decide), h.2.1 .FIRE (by decide), h.2.2.1⟩

/-- C10: for every bridge state, user id and intention,
`generate_ritual_sequence` fails with an AttributeError for `get_phase` on
`PhaseGatingSystem`, because it looks up `get_phase` on its
`PhaseGatingSystem` instance (after computing the user context) and the class
defines no such attribute — only the unrelated `SpiralTracker` does. -/
theorem generate_ritual_sequence_attribute_error
    (bridge : AINMemoryBridge) (user_id intention : String) :
    generate_ritual_sequence bridge user_id intention
      = Except.error { obj := "PhaseGatingSystem", attr := "get_phase" } ∧
    "get_phase" ∉ phaseGatingSystemAttrs ∧
    "get_phase" ∈ spiralTrackerAttrs := by
  refine ⟨?_, by decide, by decide⟩
  simp [generate_ritual_sequence, pyGetattr, phaseGatingSystemAttrs]

end Spiralogic
